import Mathlib

/-
Verification development for `src/scripts/verify.py`, a command-line script
that submits contract source to the Etherscan verification API and polls for
the result.

The script's observable behaviour is embedded shallowly:

* JSON API responses (dictionaries with `status`, `message`, `result` string
  fields) become the `Response` structure.
* The network is modelled by passing in the list of responses the API would
  return, in order, to the submit-phase POSTs and to the status-check queries.
* The script's externally visible actions (HTTP POSTs, status queries, sleeps,
  the diagnostic log write, the log-path print, raised exceptions) become an
  `Event` trace.  Ordinary progress prints are not modelled.
* Exceptions become explicit outcome constructors; a loop that would run past
  the end of the supplied response list (the real script would keep retrying
  forever) is modelled as `none`.
* Subprocess outputs (`cast chain-id`, `cast call`) are passed in as the
  decoded stdout strings; the script's `[:-1]` slicing is `pyDropLastChar`.
* The build-artifact JSON is not re-modelled as raw JSON: the compiler
  metadata the script extracts from it enters as parameters, and the license
  registry lookup (verify.py lines 135-140) is modelled exactly by
  `license_numbers` / `extract_license`.
-/

namespace VerifyScript

/-- A decoded Etherscan API response: the three string fields the script
reads from the JSON payload. -/
structure Response where
  status : String
  message : String
  result : String
deriving DecidableEq

/-- Whether `pat` is a prefix of `cs`. -/
def listStartsWith : List Char → List Char → Bool
  | _, [] => true
  | [], _ :: _ => false
  | c :: cs, p :: ps => c == p && listStartsWith cs ps

/-- Whether `pat` occurs as a contiguous sublist of `hay` (Python's
`pat in hay` on strings, over the character lists). -/
def listContainsSub : List Char → List Char → Bool
  | [], pat => listStartsWith [] pat
  | c :: cs, pat => listStartsWith (c :: cs) pat || listContainsSub cs pat

/-- Python's `pat in s.lower()` for a needle `pat` (all needles used by the
script are lowercase ASCII, for which Python's `str.lower` is exactly a
per-character `Char.toLower`). -/
def lowerContains (s pat : String) : Bool :=
  listContainsSub (s.toList.map Char.toLower) pat.toList

/-- verify.py line 176 / 203: `response['status'] != '1' or response['message'] != 'OK'`. -/
def badStatus (r : Response) : Bool :=
  r.status != "1" || r.message != "OK"

/-- verify.py line 178 / 205: `'already verified' in response['result'].lower()`. -/
def containsAlreadyVerified (r : Response) : Bool :=
  lowerContains r.result "already verified"

/-- The form fields of the verification POST body (verify.py lines 146-166)
that some claim inspects, plus the `chainid` query parameter sent with every
request.  The remaining fields (`apikey`, `module`, `action`, `codeFormat`,
`compilerversion`, `optimizationUsed`, `runs`, `evmversion`) are constant
configuration strings no claim mentions. -/
structure RequestData where
  chainid : String
  contractaddress : String
  sourceCode : String
  contractName : String
  constructorArguements : String
  licenseType : Nat
  libraryname1 : String
  libraryaddress1 : String
deriving DecidableEq

/-- Assembling the request data (verify.py lines 146-166). -/
def buildData (chainId name address code ctorArgs libName libAddr : String)
    (licenseType : Nat) : RequestData :=
  { chainid := chainId
    contractaddress := address
    sourceCode := code
    contractName := name
    constructorArguements := ctorArgs
    licenseType := licenseType
    libraryname1 := libName
    libraryaddress1 := libAddr }

/-- Externally visible actions of the script. -/
inductive Event where
  /-- An HTTP POST of a verification request carrying form data `d`. -/
  | post (d : RequestData)
  /-- An HTTP status-check query for request identifier `guid`. -/
  | statusQuery (guid : String)
  /-- `time.sleep(secs)`. -/
  | sleep (secs : Nat)
  /-- Writing the diagnostic log file with the given content
  (verify.py lines 206-209; the file name embeds the wall-clock timestamp,
  which is outside the embedding). -/
  | writeLog (content : String)
  /-- Printing the path of the diagnostic log file (verify.py line 210). -/
  | printLogPath
  /-- `raise Exception(msg)` propagating out of `verify_contract`. -/
  | raiseError (msg : String)
deriving DecidableEq

def isPost : Event → Bool
  | .post _ => true
  | _ => false

def isQuery : Event → Bool
  | .statusQuery _ => true
  | _ => false

def isRaiseEvent : Event → Bool
  | .raiseError _ => true
  | _ => false

def isWriteLogEvent : Event → Bool
  | .writeLog _ => true
  | _ => false

def countPosts (evts : List Event) : Nat :=
  (evts.filter isPost).length

def countQueries (evts : List Event) : Nat :=
  (evts.filter isQuery).length

/-- `true` iff the trace contains no raised exception and no log-file write. -/
def noRaiseOrLog (evts : List Event) : Bool :=
  evts.all fun e => !(isRaiseEvent e || isWriteLogEvent e)

/-- The submit loop of `verify_contract` (verify.py lines 168-174): POST the
request; while the response's result text contains "locate"
(case-insensitive), sleep 15 seconds and POST the identical request again.
The input list holds the successive API responses; the output is the emitted
event trace together with the first response whose result does not contain
"locate" (`none` when the list is exhausted while still looping, which in
the real script means retrying forever). -/
def submitPhase (d : RequestData) : List Response → List Event × Option Response
  | [] => ([], none)
  | r :: rs =>
    if lowerContains r.result "locate" then
      (Event.post d :: Event.sleep 15 :: (submitPhase d rs).1, (submitPhase d rs).2)
    else
      ([Event.post d], some r)

/-- The status-polling loop of `verify_contract` (verify.py lines 187-201):
query the status immediately (no wait before the first query); while the
response's result text contains "pending" (case-insensitive), sleep 15
seconds and query again. -/
def pollPhase (guid : String) : List Response → List Event × Option Response
  | [] => ([], none)
  | r :: rs =>
    if lowerContains r.result "pending" then
      (Event.statusQuery guid :: Event.sleep 15 :: (pollPhase guid rs).1, (pollPhase guid rs).2)
    else
      ([Event.statusQuery guid], some r)

/-- How a `verify_contract` call ends. -/
inductive Outcome where
  /-- Early `return` at verify.py line 181: submit response had bad
  status/message but its result contained "already verified". -/
  | returnedAlreadyVerifiedSubmit
  /-- `raise Exception('Failed to verify')` (verify.py line 179). -/
  | raisedFailedVerify
  /-- `return` at verify.py line 213: poll response had bad status/message
  but its result contained "already verified". -/
  | returnedAlreadyVerifiedPoll
  /-- Log written, then `raise Exception('Failed to get verification
  status')` (verify.py lines 206-211). -/
  | raisedFailedStatus
  /-- Normal fall-through return: verification succeeded. -/
  | verifiedOk
deriving DecidableEq

/-- Result of a terminating `verify_contract` call. -/
structure RunOut where
  /-- The request data POSTed in the submit phase. -/
  data : RequestData
  /-- The emitted event trace. -/
  events : List Event
  /-- The request identifier captured at verify.py line 185 (`none` when the
  function returned or raised before reaching it). -/
  guid : Option String
  outcome : Outcome
deriving DecidableEq

/-- verify.py lines 187-213: run the polling loop for `guid`, then interpret
the terminal response: on bad status/message, either return (result contains
"already verified") or write the flattened source `code` to the diagnostic
log, print its path and raise; otherwise return normally. -/
def pollAndFinish (code guid : String) (pollRs : List Response) :
    Option (List Event × Outcome) :=
  match pollPhase guid pollRs with
  | (_, none) => none
  | (pevts, some cr) =>
    if badStatus cr then
      if containsAlreadyVerified cr then
        some (pevts, Outcome.returnedAlreadyVerifiedPoll)
      else
        some (pevts ++ [Event.writeLog code, Event.printLogPath,
                        Event.raiseError "Failed to get verification status"],
              Outcome.raisedFailedStatus)
    else
      some (pevts, Outcome.verifiedOk)

/-- `verify_contract` (verify.py lines 119-213), from the point where the
request data is assembled.  `code` is the flattened source read from
`out/flat.sol` (lines 142-144); it is both the `sourceCode` form field and
the content of the diagnostic log on a terminal poll failure.  `submitRs`
and `pollRs` are the successive API responses to the verification POSTs and
to the status-check queries. -/
def verify_contract (chainId name address code ctorArgs libName libAddr : String)
    (licenseType : Nat) (submitRs pollRs : List Response) : Option RunOut :=
  match submitPhase (buildData chainId name address code ctorArgs libName libAddr licenseType) submitRs with
  | (_, none) => none
  | (sevts, some r) =>
    if badStatus r then
      if containsAlreadyVerified r then
        some ⟨buildData chainId name address code ctorArgs libName libAddr licenseType,
              sevts, none, Outcome.returnedAlreadyVerifiedSubmit⟩
      else
        some ⟨buildData chainId name address code ctorArgs libName libAddr licenseType,
              sevts ++ [Event.raiseError "Failed to verify"], none,
              Outcome.raisedFailedVerify⟩
    else
      match pollAndFinish code r.result pollRs with
      | none => none
      | some (pevts, o) =>
        some ⟨buildData chainId name address code ctorArgs libName libAddr licenseType,
              sevts ++ pevts, some r.result, o⟩

/-- The license registry (verify.py lines 136-139). -/
def license_numbers : List (String × Nat) :=
  [("GPL-3.0-or-later", 5), ("AGPL-3.0-or-later", 13)]

/-- verify.py line 140: `license_numbers[license_name]`; a missing key is a
`KeyError` that propagates, modelled as `none`. -/
def extract_license (licenseName : String) : Option Nat :=
  List.lookup licenseName license_numbers

/-- Hex digit per the character class `[0-9a-fA-F]` in the regex at
verify.py line 76. -/
def isHexChar (c : Char) : Bool :=
  c.isDigit || (97 ≤ c.toNat && c.toNat ≤ 102) || (65 ≤ c.toNat && c.toNat ≤ 70)

/-- Match of the regex `:DssExecLib:(0x[0-9a-fA-F]\x7b40\x7d)` anchored at the
start of `cs`: the literal `:DssExecLib:0x` followed by 40 hex digits; the
captured group is `0x` plus those 40 digits. -/
def matchLibAt (cs : List Char) : Option String :=
  if cs.take 14 = (":DssExecLib:0x").toList then
    let hex := (cs.drop 14).take 40
    if hex.length = 40 && hex.all isHexChar then
      some (String.mk ('0' :: 'x' :: hex))
    else none
  else none

/-- `re.search` of the library-address pattern: leftmost match wins. -/
def scanForLib : List Char → Option String
  | [] => none
  | c :: cs =>
    match matchLibAt (c :: cs) with
    | some a => some a
    | none => scanForLib cs

/-- `get_library_address` (verify.py lines 70-84).  `config` is the content
of `foundry.toml` (`none` when the file does not exist, which in Python
raises `FileNotFoundError`).  Each failure is re-raised as a `ValueError`
with the shown message. -/
def get_library_address (config : Option String) : Except String String :=
  match config with
  | none => Except.error "No foundry.toml found"
  | some cfg =>
    match scanForLib cfg.toList with
    | none => Except.error "No DssExecLib configured in foundry.toml"
    | some addr => Except.ok addr

/-- verify.py lines 87-96: `library_name` is set to `'DssExecLib'`
unconditionally; the `try/except ValueError` around `get_library_address`
prints a warning and leaves `library_address` as the empty string on any
failure.  Returns `(library_name, library_address)`. -/
def resolveLibrary (config : Option String) : String × String :=
  match get_library_address config with
  | Except.ok addr => ("DssExecLib", addr)
  | Except.error _ => ("DssExecLib", "")

/-- Python's `s[:-1]` (verify.py lines 66 and 239): drop the final character,
whatever it is; the empty string stays empty. -/
def pyDropLastChar (s : String) : String :=
  String.mk s.toList.dropLast

/-- Whether the string ends with a newline character. -/
def endsWithNewline (s : String) : Bool :=
  s.toList.getLast? == some (Char.ofNat 10)

/-- Modelled from the spec: the spec describes the chain identifier as the
chain-id query's "single-line textual output (trailing newline stripped)",
i.e. the decoded stdout minus its terminating newline character and nothing
else.  This definition follows the spec's words, to be compared with the
source's `pyDropLastChar`. -/
def stripTrailingNewlineSpec (s : String) : String :=
  if endsWithNewline s then String.mk s.toList.dropLast else s

/-- The chain-subdomain registry (verify.py lines 216-219). -/
def etherscan_subdomains : List (String × String) :=
  [("1", ""), ("11155111", "sepolia.")]

/-- Result of parsing `sys.argv` (verify.py lines 36-51): wrong argument
count exits with the usage message (line 40); an address whose length is not
42 exits with `malformed address` (line 48); otherwise the contract name,
address and optional constructor-argument string are loaded. -/
inductive ArgsResult where
  | usageExit
  | malformedAddress
  | ok (name address ctorArgs : String)
deriving DecidableEq

/-- verify.py lines 36-51.  Note the only check applied to the address is
`len(spell_contract_address) != 42`. -/
def parseArgs : List String → ArgsResult
  | [_, name, address] =>
    if address.length ≠ 42 then ArgsResult.malformedAddress
    else ArgsResult.ok name address ""
  | [_, name, address, ctorArgs] =>
    if address.length ≠ 42 then ArgsResult.malformedAddress
    else ArgsResult.ok name address ctorArgs
  | _ => ArgsResult.usageExit

/-- Outcomes with a raised exception, which propagates out of
`verify_contract` and aborts the script. -/
def raisesOutcome : Outcome → Bool
  | Outcome.raisedFailedVerify => true
  | Outcome.raisedFailedStatus => true
  | _ => false

/-- How a whole script run ends. -/
inductive MainOutcome where
  | exitMissingApiKey
  | exitMissingRpcUrl
  | exitUsage
  | exitMalformedAddress
  /-- The spell-contract `verify_contract` call raised. -/
  | abortedSpell (o : Outcome)
  /-- `etherscan_subdomains[chain_id]` raised `KeyError` (verify.py line 229). -/
  | abortedSubdomainLookup
  /-- The action-contract `verify_contract` call raised. -/
  | abortedAction (o : Outcome)
  | completed (o1 o2 : Outcome)
deriving DecidableEq

/-- The whole script (verify.py top to bottom).  `apiKey`/`rpcUrl` are the
environment variables (`none` = unset), `argv` is `sys.argv`,
`castChainIdOut`/`castActionOut` are the decoded stdouts of the two `cast`
subprocesses, `config` is the `foundry.toml` content, `code` the flattened
source, and `licenseType1`/`licenseType2` the license codes extracted from
the two build artifacts.  Returns the emitted event trace and the outcome
(`none` when a retry loop outlives its supplied responses). -/
def mainProgram (apiKey rpcUrl : Option String) (argv : List String)
    (castChainIdOut : String) (config : Option String) (code : String)
    (licenseType1 licenseType2 : Nat) (castActionOut : String)
    (submitRs1 pollRs1 submitRs2 pollRs2 : List Response) :
    Option (List Event × MainOutcome) :=
  match apiKey with
  | none => some ([], MainOutcome.exitMissingApiKey)
  | some _ =>
  match rpcUrl with
  | none => some ([], MainOutcome.exitMissingRpcUrl)
  | some _ =>
  match parseArgs argv with
  | ArgsResult.usageExit => some ([], MainOutcome.exitUsage)
  | ArgsResult.malformedAddress => some ([], MainOutcome.exitMalformedAddress)
  | ArgsResult.ok name address ctorArgs =>
    match verify_contract (pyDropLastChar castChainIdOut) name address code ctorArgs
        (resolveLibrary config).1 (resolveLibrary config).2
        licenseType1 submitRs1 pollRs1 with
    | none => none
    | some run1 =>
      if raisesOutcome run1.outcome then
        some (run1.events, MainOutcome.abortedSpell run1.outcome)
      else
        match List.lookup (pyDropLastChar castChainIdOut) etherscan_subdomains with
        | none => some (run1.events, MainOutcome.abortedSubdomainLookup)
        | some _ =>
          match verify_contract (pyDropLastChar castChainIdOut) "DssSpellAction"
              (pyDropLastChar castActionOut) code
              ctorArgs (resolveLibrary config).1 (resolveLibrary config).2
              licenseType2 submitRs2 pollRs2 with
          | none => none
          | some run2 =>
            if raisesOutcome run2.outcome then
              some (run1.events ++ run2.events, MainOutcome.abortedAction run2.outcome)
            else
              some (run1.events ++ run2.events,
                    MainOutcome.completed run1.outcome run2.outcome)

/-- The submit-phase trace with `n` "locate" retries: `n + 1` POSTs with a
15-second sleep between consecutive POSTs. -/
def expectedSubmitTrace (d : RequestData) (n : Nat) : List Event :=
  List.flatten (List.replicate n [Event.post d, Event.sleep 15]) ++ [Event.post d]

/-- The poll-phase trace with `m` "pending" retries: `m + 1` status queries,
no wait before the first and a 15-second sleep before each subsequent one. -/
def expectedPollTrace (guid : String) (m : Nat) : List Event :=
  List.flatten (List.replicate m [Event.statusQuery guid, Event.sleep 15])
    ++ [Event.statusQuery guid]

/-! ### Structural lemmas about the two retry loops -/

theorem submitPhase_app (d : RequestData) (locs : List Response) (term : Response)
    (rest : List Response)
    (hloc : ∀ r ∈ locs, lowerContains r.result "locate" = true)
    (hterm : lowerContains term.result "locate" = false) :
    submitPhase d (locs ++ term :: rest)
      = (expectedSubmitTrace d locs.length, some term) := by
  induction locs with
  | nil => simp [submitPhase, hterm, expectedSubmitTrace]
  | cons l ls ih =>
    have hl : lowerContains l.result "locate" = true := hloc l (by simp)
    have ihh := ih (fun r hr => hloc r (by simp [hr]))
    simp [submitPhase, hl, ihh, expectedSubmitTrace, List.replicate_succ]

theorem pollPhase_app (guid : String) (pends : List Response) (term : Response)
    (rest : List Response)
    (hp : ∀ r ∈ pends, lowerContains r.result "pending" = true)
    (hterm : lowerContains term.result "pending" = false) :
    pollPhase guid (pends ++ term :: rest)
      = (expectedPollTrace guid pends.length, some term) := by
  induction pends with
  | nil => simp [pollPhase, hterm, expectedPollTrace]
  | cons p ps ih =>
    have hl : lowerContains p.result "pending" = true := hp p (by simp)
    have ihh := ih (fun r hr => hp r (by simp [hr]))
    simp [pollPhase, hl, ihh, expectedPollTrace, List.replicate_succ]

theorem countPosts_expectedSubmitTrace (d : RequestData) (n : Nat) :
    countPosts (expectedSubmitTrace d n) = n + 1 := by
  induction n with
  | zero => simp [expectedSubmitTrace, countPosts, isPost]
  | succ n ih =>
    simp only [expectedSubmitTrace, List.replicate_succ, List.flatten_cons,
      List.cons_append, countPosts, List.filter, isPost] at ih ⊢
    simpa using ih

theorem countQueries_expectedPollTrace (guid : String) (m : Nat) :
    countQueries (expectedPollTrace guid m) = m + 1 := by
  induction m with
  | zero => simp [expectedPollTrace, countQueries, isQuery]
  | succ m ih =>
    simp only [expectedPollTrace, List.replicate_succ, List.flatten_cons,
      List.cons_append, countQueries, List.filter, isQuery] at ih ⊢
    simpa using ih

theorem submitPhase_events_shape (d : RequestData) (rs : List Response) :
    ∀ e ∈ (submitPhase d rs).1, e = Event.post d ∨ e = Event.sleep 15 := by
  induction rs with
  | nil => simp [submitPhase]
  | cons r rs ih =>
    intro e he
    cases h : lowerContains r.result "locate" with
    | true =>
      simp only [submitPhase, h, if_true, List.mem_cons] at he
      rcases he with he | he | he
      · exact Or.inl he
      · exact Or.inr he
      · exact ih e he
    | false =>
      simp only [submitPhase, h, Bool.false_eq_true, if_false, List.mem_cons,
        List.not_mem_nil, or_false] at he
      exact Or.inl he

theorem pollPhase_events_shape (guid : String) (rs : List Response) :
    ∀ e ∈ (pollPhase guid rs).1, e = Event.statusQuery guid ∨ e = Event.sleep 15 := by
  induction rs with
  | nil => simp [pollPhase]
  | cons r rs ih =>
    intro e he
    cases h : lowerContains r.result "pending" with
    | true =>
      simp only [pollPhase, h, if_true, List.mem_cons] at he
      rcases he with he | he | he
      · exact Or.inl he
      · exact Or.inr he
      · exact ih e he
    | false =>
      simp only [pollPhase, h, Bool.false_eq_true, if_false, List.mem_cons,
        List.not_mem_nil, or_false] at he
      exact Or.inl he

theorem pollAndFinish_eq (code guid : String) (pollRs : List Response)
    (pevts : List Event) (cr : Response)
    (h : pollPhase guid pollRs = (pevts, some cr)) :
    pollAndFinish code guid pollRs =
      (if badStatus cr then
        if containsAlreadyVerified cr then
          some (pevts, Outcome.returnedAlreadyVerifiedPoll)
        else
          some (pevts ++ [Event.writeLog code, Event.printLogPath,
                          Event.raiseError "Failed to get verification status"],
                Outcome.raisedFailedStatus)
      else some (pevts, Outcome.verifiedOk)) := by
  unfold pollAndFinish
  rw [h]

theorem verify_contract_eq
    (chainId name address code ctorArgs libName libAddr : String) (lt : Nat)
    (submitRs pollRs : List Response) (sevts : List Event) (r : Response)
    (h : submitPhase (buildData chainId name address code ctorArgs libName libAddr lt)
           submitRs = (sevts, some r)) :
    verify_contract chainId name address code ctorArgs libName libAddr lt submitRs pollRs =
      (if badStatus r then
        if containsAlreadyVerified r then
          some ⟨buildData chainId name address code ctorArgs libName libAddr lt,
                sevts, none, Outcome.returnedAlreadyVerifiedSubmit⟩
        else
          some ⟨buildData chainId name address code ctorArgs libName libAddr lt,
                sevts ++ [Event.raiseError "Failed to verify"], none,
                Outcome.raisedFailedVerify⟩
      else
        match pollAndFinish code r.result pollRs with
        | none => none
        | some (pevts, o) =>
          some ⟨buildData chainId name address code ctorArgs libName libAddr lt,
                sevts ++ pevts, some r.result, o⟩) := by
  unfold verify_contract
  rw [h]

theorem noRaiseOrLog_of_shape (evts : List Event)
    (h : ∀ e ∈ evts, isRaiseEvent e = false ∧ isWriteLogEvent e = false) :
    noRaiseOrLog evts = true := by
  simp only [noRaiseOrLog, List.all_eq_true]
  intro e he
  obtain ⟨h1, h2⟩ := h e he
  simp [h1, h2]

theorem submitPhase_noRaiseOrLog (d : RequestData) (rs : List Response)
    (sevts : List Event) (o : Option Response)
    (h : submitPhase d rs = (sevts, o)) : noRaiseOrLog sevts = true := by
  apply noRaiseOrLog_of_shape
  intro e he
  rcases submitPhase_events_shape d rs e (by rw [h]; exact he) with h' | h' <;>
    subst h' <;> exact ⟨rfl, rfl⟩

theorem pollPhase_noRaiseOrLog (guid : String) (rs : List Response)
    (pevts : List Event) (o : Option Response)
    (h : pollPhase guid rs = (pevts, o)) : noRaiseOrLog pevts = true := by
  apply noRaiseOrLog_of_shape
  intro e he
  rcases pollPhase_events_shape guid rs e (by rw [h]; exact he) with h' | h' <;>
    subst h' <;> exact ⟨rfl, rfl⟩

/-- Claim C1: for every sequence of submit-phase API responses whose first
`N` elements (here: the list `locs`, `N = locs.length`) have a result field
containing "locate" case-insensitively and whose `(N+1)`-th element `term`
is a clean success (`status = "1"`, `message = "OK"`, no "locate" in the
result), `verify_contract` issues exactly `N+1` POST requests with a fixed
15-second sleep between consecutive submissions (the trace
`expectedSubmitTrace d N` is literally `N` repetitions of POST-then-sleep-15
followed by the final POST), and the guid captured for the polling phase is
the final response's result field. -/
theorem submit_retry_requests_and_guid
    (chainId name address code ctorArgs libName libAddr : String) (lt : Nat)
    (locs : List Response) (term : Response) (rest : List Response)
    (hloc : ∀ r ∈ locs, lowerContains r.result "locate" = true)
    (hst : term.status = "1") (hmsg : term.message = "OK")
    (hterm : lowerContains term.result "locate" = false) :
    submitPhase (buildData chainId name address code ctorArgs libName libAddr lt)
        (locs ++ term :: rest)
      = (expectedSubmitTrace (buildData chainId name address code ctorArgs libName libAddr lt)
          locs.length, some term) ∧
    countPosts (expectedSubmitTrace
        (buildData chainId name address code ctorArgs libName libAddr lt) locs.length)
      = locs.length + 1 ∧
    ∀ pollRs run,
      verify_contract chainId name address code ctorArgs libName libAddr lt
          (locs ++ term :: rest) pollRs = some run →
      run.guid = some term.result := by
  have hsub := submitPhase_app
    (buildData chainId name address code ctorArgs libName libAddr lt) locs term rest hloc hterm
  refine ⟨hsub, countPosts_expectedSubmitTrace _ _, ?_⟩
  intro pollRs run h
  have hb : badStatus term = false := by
    simp [badStatus, hst, hmsg]
  unfold verify_contract at h
  split at h
  next _ heq =>
    rw [hsub] at heq
    simp at heq
  next sevts r heq =>
    rw [hsub] at heq
    simp only [Prod.mk.injEq, Option.some.injEq] at heq
    obtain ⟨hsevts, hr⟩ := heq
    subst hr
    rw [hb] at h
    simp only [Bool.false_eq_true, if_false] at h
    split at h
    next heq2 => simp at h
    next pevts o heq2 =>
      simp only [Option.some.injEq] at h
      rw [← h]

/-- Concrete run of the C1 theorem: one "locate" response followed by a
clean success gives two POSTs with one 15-second sleep in between, and the
guid is the final response's result. -/
theorem submit_retry_requests_and_guid_witness :
    submitPhase (buildData "1" "MySpell" "0xaddr" "src" "" "DssExecLib" "" 5)
        ([⟨"0", "NOTOK", "Unable to locate ContractCode"⟩] ++ ⟨"1", "OK", "guid123"⟩ :: [])
      = (expectedSubmitTrace (buildData "1" "MySpell" "0xaddr" "src" "" "DssExecLib" "" 5) 1,
         some ⟨"1", "OK", "guid123"⟩) ∧
    countPosts (expectedSubmitTrace (buildData "1" "MySpell" "0xaddr" "src" "" "DssExecLib" "" 5) 1)
      = 2 ∧
    ∀ pollRs run,
      verify_contract "1" "MySpell" "0xaddr" "src" "" "DssExecLib" "" 5
          ([⟨"0", "NOTOK", "Unable to locate ContractCode"⟩] ++ ⟨"1", "OK", "guid123"⟩ :: [])
          pollRs = some run →
      run.guid = some "guid123" :=
  submit_retry_requests_and_guid "1" "MySpell" "0xaddr" "src" "" "DssExecLib" "" 5
    [⟨"0", "NOTOK", "Unable to locate ContractCode"⟩] ⟨"1", "OK", "guid123"⟩ []
    (by decide) rfl rfl (by decide)

/-- Claim C2: for every sequence of status-check responses whose first `M`
elements (the list `pends`, `M = pends.length`) have a result field
containing "pending" case-insensitively and whose `(M+1)`-th element `term`
is a success (`status = "1"`, `message = "OK"`) or an "already verified"
response (in either case not itself a pending response), the polling phase
issues exactly `M+1` status queries — no wait before the first query, a
15-second sleep before each subsequent one (the shape of
`expectedPollTrace`) — and terminates without raising: the outcome is a
normal return and the emitted poll trace contains no raise and no log
write. -/
theorem poll_retry_queries_no_raise
    (code guid : String) (pends : List Response) (term : Response) (rest : List Response)
    (hp : ∀ r ∈ pends, lowerContains r.result "pending" = true)
    (hterm : lowerContains term.result "pending" = false)
    (hok : (term.status = "1" ∧ term.message = "OK") ∨ containsAlreadyVerified term = true) :
    pollPhase guid (pends ++ term :: rest)
      = (expectedPollTrace guid pends.length, some term) ∧
    countQueries (expectedPollTrace guid pends.length) = pends.length + 1 ∧
    (∃ o, pollAndFinish code guid (pends ++ term :: rest)
        = some (expectedPollTrace guid pends.length, o) ∧
      (o = Outcome.verifiedOk ∨ o = Outcome.returnedAlreadyVerifiedPoll)) ∧
    noRaiseOrLog (expectedPollTrace guid pends.length) = true := by
  have hpoll := pollPhase_app guid pends term rest hp hterm
  have heq := pollAndFinish_eq code guid (pends ++ term :: rest) _ _ hpoll
  refine ⟨hpoll, countQueries_expectedPollTrace _ _, ?_,
    pollPhase_noRaiseOrLog guid (pends ++ term :: rest) _ _ hpoll⟩
  by_cases hb : badStatus term = true
  · have hav : containsAlreadyVerified term = true := by
      rcases hok with ⟨h1, h2⟩ | hav
      · exfalso
        simp [badStatus, h1, h2] at hb
      · exact hav
    refine ⟨Outcome.returnedAlreadyVerifiedPoll, ?_, Or.inr rfl⟩
    rw [heq, hb, hav]
    simp
  · refine ⟨Outcome.verifiedOk, ?_, Or.inl rfl⟩
    rw [heq]
    simp [hb]

/-- Concrete run of the C2 theorem: one "pending" response followed by a
success gives two status queries with one 15-second sleep in between, and
the poll phase ends in a normal return with no raise and no log write. -/
theorem poll_retry_queries_no_raise_witness :
    pollPhase "guid123" ([⟨"1", "OK", "Pending in queue"⟩] ++ ⟨"1", "OK", "Pass - Verified"⟩ :: [])
      = (expectedPollTrace "guid123" 1, some ⟨"1", "OK", "Pass - Verified"⟩) ∧
    countQueries (expectedPollTrace "guid123" 1) = 2 ∧
    (∃ o, pollAndFinish "src" "guid123"
        ([⟨"1", "OK", "Pending in queue"⟩] ++ ⟨"1", "OK", "Pass - Verified"⟩ :: [])
        = some (expectedPollTrace "guid123" 1, o) ∧
      (o = Outcome.verifiedOk ∨ o = Outcome.returnedAlreadyVerifiedPoll)) ∧
    noRaiseOrLog (expectedPollTrace "guid123" 1) = true :=
  poll_retry_queries_no_raise "src" "guid123"
    [⟨"1", "OK", "Pending in queue"⟩] ⟨"1", "OK", "Pass - Verified"⟩ []
    (by decide) (by decide) (Or.inl ⟨rfl, rfl⟩)

/-- Claim C3: when the terminal (non-pending) status-check response has a
status other than "1" or a message other than "OK", and its result text
does not contain "already verified" (case-insensitively), `verify_contract`
ends with the event sequence: write the diagnostic log whose content is
exactly `code` — the flattened source, which is precisely the `sourceCode`
field of the request that was POSTed — print the log path, and raise
"Failed to get verification status", which propagates (outcome
`raisedFailedStatus`).  The log file's timestamp-derived name comes from
the wall clock and is outside the embedding; the write itself and its exact
content are the `writeLog` event. -/
theorem poll_failure_writes_log_and_raises
    (chainId name address code ctorArgs libName libAddr : String) (lt : Nat)
    (submitRs pollRs : List Response) (sevts pevts : List Event) (r cr : Response)
    (hsub : submitPhase (buildData chainId name address code ctorArgs libName libAddr lt)
        submitRs = (sevts, some r))
    (hgood : badStatus r = false)
    (hpoll : pollPhase r.result pollRs = (pevts, some cr))
    (hbad : badStatus cr = true)
    (hnav : containsAlreadyVerified cr = false) :
    verify_contract chainId name address code ctorArgs libName libAddr lt submitRs pollRs
      = some ⟨buildData chainId name address code ctorArgs libName libAddr lt,
              sevts ++ (pevts ++ [Event.writeLog code, Event.printLogPath,
                Event.raiseError "Failed to get verification status"]),
              some r.result, Outcome.raisedFailedStatus⟩ ∧
    (buildData chainId name address code ctorArgs libName libAddr lt).sourceCode = code := by
  have hpf := pollAndFinish_eq code r.result pollRs pevts cr hpoll
  rw [hbad, hnav] at hpf
  simp only [if_true, Bool.false_eq_true, if_false] at hpf
  have hvc := verify_contract_eq chainId name address code ctorArgs libName libAddr lt
    submitRs pollRs sevts r hsub
  rw [hgood] at hvc
  simp only [Bool.false_eq_true, if_false] at hvc
  rw [hpf] at hvc
  exact ⟨hvc, rfl⟩

/-- Concrete run of the C3 theorem: a clean submit success followed by a
failing status check writes the log with exactly the flattened source and
raises "Failed to get verification status". -/
theorem poll_failure_writes_log_and_raises_witness :
    verify_contract "1" "MySpell" "0xaddr" "flat source text" "" "DssExecLib" "" 5
        [⟨"1", "OK", "guid123"⟩] [⟨"0", "NOTOK", "Fail - Unable to verify"⟩]
      = some ⟨buildData "1" "MySpell" "0xaddr" "flat source text" "" "DssExecLib" "" 5,
              [Event.post (buildData "1" "MySpell" "0xaddr" "flat source text" "" "DssExecLib" "" 5)]
                ++ ([Event.statusQuery "guid123"] ++ [Event.writeLog "flat source text",
                  Event.printLogPath,
                  Event.raiseError "Failed to get verification status"]),
              some "guid123", Outcome.raisedFailedStatus⟩ ∧
    (buildData "1" "MySpell" "0xaddr" "flat source text" "" "DssExecLib" "" 5).sourceCode
      = "flat source text" :=
  poll_failure_writes_log_and_raises "1" "MySpell" "0xaddr" "flat source text" "" "DssExecLib" ""
    5 [⟨"1", "OK", "guid123"⟩] [⟨"0", "NOTOK", "Fail - Unable to verify"⟩]
    [Event.post (buildData "1" "MySpell" "0xaddr" "flat source text" "" "DssExecLib" "" 5)]
    [Event.statusQuery "guid123"]
    ⟨"1", "OK", "guid123"⟩ ⟨"0", "NOTOK", "Fail - Unable to verify"⟩
    (by decide) rfl (by decide) rfl (by decide)

/-- Claim C4: whenever the terminal submit-phase response (first conjunct)
or the terminal poll-phase response (second conjunct) has a status other
than "1" or a message other than "OK" but its result text contains
"already verified" in any letter case, `verify_contract` returns normally:
the outcome is an early return, and the emitted event trace contains no
raised exception and no diagnostic-log write. -/
theorem already_verified_returns_normally
    (chainId name address code ctorArgs libName libAddr : String) (lt : Nat) :
    (∀ submitRs pollRs : List Response, ∀ sevts : List Event, ∀ r : Response,
      submitPhase (buildData chainId name address code ctorArgs libName libAddr lt)
          submitRs = (sevts, some r) →
      badStatus r = true → containsAlreadyVerified r = true →
      verify_contract chainId name address code ctorArgs libName libAddr lt submitRs pollRs
        = some ⟨buildData chainId name address code ctorArgs libName libAddr lt,
                sevts, none, Outcome.returnedAlreadyVerifiedSubmit⟩ ∧
      noRaiseOrLog sevts = true) ∧
    (∀ submitRs pollRs : List Response, ∀ sevts pevts : List Event, ∀ r cr : Response,
      submitPhase (buildData chainId name address code ctorArgs libName libAddr lt)
          submitRs = (sevts, some r) →
      badStatus r = false →
      pollPhase r.result pollRs = (pevts, some cr) →
      badStatus cr = true → containsAlreadyVerified cr = true →
      verify_contract chainId name address code ctorArgs libName libAddr lt submitRs pollRs
        = some ⟨buildData chainId name address code ctorArgs libName libAddr lt,
                sevts ++ pevts, some r.result, Outcome.returnedAlreadyVerifiedPoll⟩ ∧
      noRaiseOrLog (sevts ++ pevts) = true) := by
  constructor
  · intro submitRs pollRs sevts r hsub hbad hav
    have hvc := verify_contract_eq chainId name address code ctorArgs libName libAddr lt
      submitRs pollRs sevts r hsub
    rw [hbad, hav] at hvc
    simp only [if_true] at hvc
    exact ⟨hvc, submitPhase_noRaiseOrLog _ _ _ _ hsub⟩
  · intro submitRs pollRs sevts pevts r cr hsub hgood hpoll hbad hav
    have hpf := pollAndFinish_eq code r.result pollRs pevts cr hpoll
    rw [hbad, hav] at hpf
    simp only [if_true] at hpf
    have hvc := verify_contract_eq chainId name address code ctorArgs libName libAddr lt
      submitRs pollRs sevts r hsub
    rw [hgood] at hvc
    simp only [Bool.false_eq_true, if_false] at hvc
    rw [hpf] at hvc
    refine ⟨hvc, ?_⟩
    have h1 := submitPhase_noRaiseOrLog _ _ _ _ hsub
    have h2 := pollPhase_noRaiseOrLog _ _ _ _ hpoll
    simp only [noRaiseOrLog, List.all_append] at h1 h2 ⊢
    rw [h1, h2]
    rfl

/-- Concrete runs of the C4 theorem: an "already verified" response with bad
status at the submit phase, and one at the poll phase; both return normally
with no raise and no log write. -/
theorem already_verified_returns_normally_witness :
    (verify_contract "1" "MySpell" "0xaddr" "src" "" "DssExecLib" "" 5
        [⟨"0", "NOTOK", "Contract source code already verified"⟩] []
      = some ⟨buildData "1" "MySpell" "0xaddr" "src" "" "DssExecLib" "" 5,
              [Event.post (buildData "1" "MySpell" "0xaddr" "src" "" "DssExecLib" "" 5)],
              none, Outcome.returnedAlreadyVerifiedSubmit⟩ ∧
      noRaiseOrLog [Event.post (buildData "1" "MySpell" "0xaddr" "src" "" "DssExecLib" "" 5)]
        = true) ∧
    (verify_contract "1" "MySpell" "0xaddr" "src" "" "DssExecLib" "" 5
        [⟨"1", "OK", "guid123"⟩] [⟨"0", "NOTOK", "Already Verified"⟩]
      = some ⟨buildData "1" "MySpell" "0xaddr" "src" "" "DssExecLib" "" 5,
              [Event.post (buildData "1" "MySpell" "0xaddr" "src" "" "DssExecLib" "" 5)]
                ++ [Event.statusQuery "guid123"],
              some "guid123", Outcome.returnedAlreadyVerifiedPoll⟩ ∧
      noRaiseOrLog ([Event.post (buildData "1" "MySpell" "0xaddr" "src" "" "DssExecLib" "" 5)]
          ++ [Event.statusQuery "guid123"]) = true) :=
  ⟨(already_verified_returns_normally "1" "MySpell" "0xaddr" "src" "" "DssExecLib" "" 5).1
      [⟨"0", "NOTOK", "Contract source code already verified"⟩] []
      [Event.post (buildData "1" "MySpell" "0xaddr" "src" "" "DssExecLib" "" 5)]
      ⟨"0", "NOTOK", "Contract source code already verified"⟩
      (by decide) rfl (by decide),
   (already_verified_returns_normally "1" "MySpell" "0xaddr" "src" "" "DssExecLib" "" 5).2
      [⟨"1", "OK", "guid123"⟩] [⟨"0", "NOTOK", "Already Verified"⟩]
      [Event.post (buildData "1" "MySpell" "0xaddr" "src" "" "DssExecLib" "" 5)]
      [Event.statusQuery "guid123"]
      ⟨"1", "OK", "guid123"⟩ ⟨"0", "NOTOK", "Already Verified"⟩
      (by decide) rfl (by decide) rfl (by decide)⟩

/-- Claim C5: the license registry maps "GPL-3.0-or-later" to 5 and
"AGPL-3.0-or-later" to 13, and for every other license string the lookup
fails (the Python `KeyError` that propagates is the `none` case). -/
theorem license_registry_mapping :
    extract_license "GPL-3.0-or-later" = some 5 ∧
    extract_license "AGPL-3.0-or-later" = some 13 ∧
    ∀ s : String, s ≠ "GPL-3.0-or-later" → s ≠ "AGPL-3.0-or-later" →
      extract_license s = none := by
  refine ⟨by decide, by decide, ?_⟩
  intro s h1 h2
  have e1 : (s == "GPL-3.0-or-later") = false := by
    simpa using h1
  have e2 : (s == "AGPL-3.0-or-later") = false := by
    simpa using h2
  simp [extract_license, license_numbers, List.lookup, e1, e2]

/-- Concrete instance of the C5 theorem: an unregistered license fails the
lookup. -/
theorem license_registry_mapping_witness :
    extract_license "MIT" = none :=
  license_registry_mapping.2.2 "MIT" (by decide) (by decide)

/-- Claim C6: for every address argument whose length is not exactly 42
characters (with a valid argument count, so that the address-length check is
the one that fires), the program stops with the malformed-address exit and
its event trace is empty — in particular no HTTP POST and no status query is
ever issued. -/
theorem malformed_address_no_network
    (apiKey rpcUrl : String) (argv : List String) (castChainIdOut : String)
    (config : Option String) (code : String) (licenseType1 licenseType2 : Nat)
    (castActionOut : String) (submitRs1 pollRs1 submitRs2 pollRs2 : List Response)
    (h2 : 2 < argv.length)
    (hc : argv.length = 3 ∨ argv.length = 4)
    (haddr : (argv.get ⟨2, h2⟩).length ≠ 42) :
    ∃ evts o,
      mainProgram (some apiKey) (some rpcUrl) argv castChainIdOut config code
          licenseType1 licenseType2 castActionOut submitRs1 pollRs1 submitRs2 pollRs2
        = some (evts, o) ∧
      o = MainOutcome.exitMalformedAddress ∧ countPosts evts = 0 ∧ countQueries evts = 0 := by
  refine ⟨[], MainOutcome.exitMalformedAddress, ?_, rfl, rfl, rfl⟩
  rcases argv with _ | ⟨a, argv⟩
  · simp at h2
  rcases argv with _ | ⟨b, argv⟩
  · simp at h2
  rcases argv with _ | ⟨c, argv⟩
  · simp at h2
  rcases argv with _ | ⟨d, argv⟩
  · have hc' : c.length ≠ 42 := haddr
    simp [mainProgram, parseArgs, hc']
  rcases argv with _ | ⟨e, argv⟩
  · have hc' : c.length ≠ 42 := haddr
    simp [mainProgram, parseArgs, hc']
  · rcases hc with hc | hc <;> simp [List.length_cons] at hc

/-- Concrete instance of the C6 theorem: a 5-character address exits with
the malformed-address error and an empty event trace. -/
theorem malformed_address_no_network_witness :
    ∃ evts o,
      mainProgram (some "key") (some "url") ["./verify.py", "MySpell", "0x123"] "1\n" none
          "src" 5 5 "0xaa\n" [] [] [] []
        = some (evts, o) ∧
      o = MainOutcome.exitMalformedAddress ∧ countPosts evts = 0 ∧ countQueries evts = 0 :=
  malformed_address_no_network "key" "url" ["./verify.py", "MySpell", "0x123"] "1\n" none
    "src" 5 5 "0xaa\n" [] [] [] [] (by decide) (Or.inl rfl) (by decide)

theorem pollAndFinish_no_post (code guid : String) (pollRs : List Response)
    (pevts : List Event) (o : Outcome)
    (h : pollAndFinish code guid pollRs = some (pevts, o)) :
    ∀ e ∈ pevts, isPost e = false := by
  intro e he
  unfold pollAndFinish at h
  split at h
  next heq => exact absurd h (by simp)
  next pevts0 cr heq =>
    have hq : ∀ e2 ∈ pevts0, isPost e2 = false := by
      intro e2 he2
      rcases pollPhase_events_shape guid pollRs e2 (by rw [heq]; exact he2) with h' | h' <;>
        subst h' <;> rfl
    split at h
    · split at h
      · simp only [Option.some.injEq, Prod.mk.injEq] at h
        exact hq e (h.1 ▸ he)
      · simp only [Option.some.injEq, Prod.mk.injEq] at h
        rw [← h.1] at he
        rcases List.mem_append.mp he with he | he
        · exact hq e he
        · simp only [List.mem_cons, List.not_mem_nil, or_false] at he
          rcases he with he | he | he <;> subst he <;> rfl
    · simp only [Option.some.injEq, Prod.mk.injEq] at h
      exact hq e (h.1 ▸ he)

theorem verify_contract_post_data
    (chainId name address code ctorArgs libName libAddr : String) (lt : Nat)
    (submitRs pollRs : List Response) (run : RunOut)
    (h : verify_contract chainId name address code ctorArgs libName libAddr lt
        submitRs pollRs = some run) :
    ∀ d, Event.post d ∈ run.events →
      d = buildData chainId name address code ctorArgs libName libAddr lt := by
  intro d hd
  unfold verify_contract at h
  split at h
  next _ heq => exact absurd h (by simp)
  next sevts r heq =>
    have hs : ∀ e ∈ sevts,
        e = Event.post (buildData chainId name address code ctorArgs libName libAddr lt) ∨
        e = Event.sleep 15 := by
      intro e he
      exact submitPhase_events_shape _ _ e (by rw [heq]; exact he)
    have hpostOf : ∀ he2 : Event.post d ∈ sevts, d = buildData chainId name address code
        ctorArgs libName libAddr lt := by
      intro he2
      rcases hs _ he2 with h' | h'
      · exact (Event.post.injEq _ _).mp h'
      · exact absurd h' (by simp)
    split at h
    · split at h
      · simp only [Option.some.injEq] at h
        rw [← h] at hd
        exact hpostOf hd
      · simp only [Option.some.injEq] at h
        rw [← h] at hd
        simp only at hd
        rcases List.mem_append.mp hd with hd | hd
        · exact hpostOf hd
        · simp at hd
    · split at h
      next heq2 => exact absurd h (by simp)
      next pevts o heq2 =>
        simp only [Option.some.injEq] at h
        rw [← h] at hd
        simp only at hd
        rcases List.mem_append.mp hd with hd | hd
        · exact hpostOf hd
        · have := pollAndFinish_no_post _ _ _ _ _ heq2 _ hd
          simp [isPost] at this

/-- Every POST the whole script issues carries the request data of one of
its two `verify_contract` calls: the spell contract's (name and address from
the command line) or the action contract's (fixed name "DssSpellAction",
address from the `cast call` output).  Both are built with the same chain id
`pyDropLastChar castChainIdOut`, the same flattened source, the same
constructor-argument string and the same library pair. -/
theorem mainProgram_post_data
    (apiKey rpcUrl : String) (argv : List String) (castChainIdOut : String)
    (config : Option String) (code : String) (licenseType1 licenseType2 : Nat)
    (castActionOut : String) (submitRs1 pollRs1 submitRs2 pollRs2 : List Response)
    (name address ctorArgs : String) (evts : List Event) (o : MainOutcome)
    (hargs : parseArgs argv = ArgsResult.ok name address ctorArgs)
    (h : mainProgram (some apiKey) (some rpcUrl) argv castChainIdOut config code
          licenseType1 licenseType2 castActionOut submitRs1 pollRs1 submitRs2 pollRs2
        = some (evts, o)) :
    ∀ d, Event.post d ∈ evts →
      d = buildData (pyDropLastChar castChainIdOut) name address code ctorArgs
            (resolveLibrary config).1 (resolveLibrary config).2 licenseType1 ∨
      d = buildData (pyDropLastChar castChainIdOut) "DssSpellAction"
            (pyDropLastChar castActionOut) code ctorArgs
            (resolveLibrary config).1 (resolveLibrary config).2 licenseType2 := by
  intro d hd
  simp only [mainProgram, hargs] at h
  split at h
  next heq1 => exact absurd h (by simp)
  next run1 heq1 =>
    have hrun1 := verify_contract_post_data _ _ _ _ _ _ _ _ _ _ _ heq1
    split at h
    · simp only [Option.some.injEq, Prod.mk.injEq] at h
      rw [← h.1] at hd
      exact Or.inl (hrun1 d hd)
    · split at h
      next heq2 =>
        simp only [Option.some.injEq, Prod.mk.injEq] at h
        rw [← h.1] at hd
        exact Or.inl (hrun1 d hd)
      next sub heq2 =>
        split at h
        next heq3 => exact absurd h (by simp)
        next run2 heq3 =>
          have hrun2 := verify_contract_post_data _ _ _ _ _ _ _ _ _ _ _ heq3
          have hev : evts = run1.events ++ run2.events := by
            split at h <;>
              simp only [Option.some.injEq, Prod.mk.injEq] at h <;>
              exact h.1.symm
          rw [hev] at hd
          rcases List.mem_append.mp hd with hd | hd
          · exact Or.inl (hrun1 d hd)
          · exact Or.inr (hrun2 d hd)

/-- Claim C7 (amended): whenever library-address resolution fails — file
not found, pattern not found, or any other parse failure, i.e. whenever
`get_library_address` yields an error — the script proceeds non-fatally
(`resolveLibrary` is total and returns) with the library address left
empty; the library name, however, remains "DssExecLib", not empty. -/
theorem library_failure_address_empty_name_kept
    (config : Option String) (msg : String)
    (h : get_library_address config = Except.error msg) :
    resolveLibrary config = ("DssExecLib", "") := by
  unfold resolveLibrary
  rw [h]

/-- Concrete instance of the amended C7 theorem: no `foundry.toml` file. -/
theorem library_failure_address_empty_name_kept_witness :
    resolveLibrary none = ("DssExecLib", "") :=
  library_failure_address_empty_name_kept none "No foundry.toml found" rfl

/-- Claim C7 counterexample: with no `foundry.toml` (resolution fails), the
script proceeds and the verification requests it POSTs carry
`libraryname1 = "DssExecLib"` — not the empty library name the claim
asserts.  Only the library address is left empty. -/
theorem library_name_not_empty_counterexample :
    get_library_address none = Except.error "No foundry.toml found" ∧
    resolveLibrary none = ("DssExecLib", "") ∧
    (buildData "1" "MySpell" "0x1111111111111111111111111111111111111111" "src" ""
        (resolveLibrary none).1 (resolveLibrary none).2 5).libraryname1 = "DssExecLib" ∧
    ¬ (buildData "1" "MySpell" "0x1111111111111111111111111111111111111111" "src" ""
        (resolveLibrary none).1 (resolveLibrary none).2 5).libraryname1 = "" ∧
    mainProgram (some "key") (some "url")
        ["./verify.py", "MySpell", "0x1111111111111111111111111111111111111111"] "1\n" none
        "src" 5 5 "0xaa\n"
        [⟨"1", "OK", "guid1"⟩] [⟨"1", "OK", "Pass - Verified"⟩]
        [⟨"1", "OK", "guid2"⟩] [⟨"1", "OK", "Pass - Verified"⟩]
      = some ([Event.post (buildData "1" "MySpell"
                  "0x1111111111111111111111111111111111111111" "src" "" "DssExecLib" "" 5),
               Event.statusQuery "guid1",
               Event.post (buildData "1" "DssSpellAction" "0xaa" "src" "" "DssExecLib" "" 5),
               Event.statusQuery "guid2"],
              MainOutcome.completed Outcome.verifiedOk Outcome.verifiedOk) := by
  exact ⟨rfl, rfl, rfl, by decide, by decide⟩

theorem pyDropLastChar_eq_strip (s : String) (h : endsWithNewline s = true) :
    pyDropLastChar s = stripTrailingNewlineSpec s := by
  simp [stripTrailingNewlineSpec, pyDropLastChar, h]

/-- Claim C8 counterexample: the script computes the chain id with Python's
`[:-1]`, which drops the final character unconditionally.  On the chain-id
query output "1" — which has no trailing newline — the script's chain id is
"" whereas the claim ("the decoded stdout minus the terminating newline
character, and nothing else removed") gives "1". -/
theorem chain_id_drop_last_counterexample :
    pyDropLastChar "1" = "" ∧
    stripTrailingNewlineSpec "1" = "1" ∧
    ¬ pyDropLastChar "1" = stripTrailingNewlineSpec "1" := by
  exact ⟨by decide, by decide, by decide⟩

/-- Claim C8 (amended): for every chain-id query output that ends with a
newline (the normal case for the external tool), the chain identifier used
in every subsequent API request — the `chainid` field of every POST the
script issues — equals that output with its trailing newline stripped.  (On
outputs not ending in a newline the script instead drops the final
character, per the counterexample.) -/
theorem chain_id_newline_strip
    (apiKey rpcUrl : String) (argv : List String) (castChainIdOut : String)
    (config : Option String) (code : String) (licenseType1 licenseType2 : Nat)
    (castActionOut : String) (submitRs1 pollRs1 submitRs2 pollRs2 : List Response)
    (evts : List Event) (o : MainOutcome)
    (hnl : endsWithNewline castChainIdOut = true)
    (h : mainProgram (some apiKey) (some rpcUrl) argv castChainIdOut config code
          licenseType1 licenseType2 castActionOut submitRs1 pollRs1 submitRs2 pollRs2
        = some (evts, o)) :
    ∀ d, Event.post d ∈ evts → d.chainid = stripTrailingNewlineSpec castChainIdOut := by
  intro d hd
  rw [← pyDropLastChar_eq_strip castChainIdOut hnl]
  cases hargs : parseArgs argv with
  | usageExit =>
    simp only [mainProgram, hargs] at h
    simp only [Option.some.injEq, Prod.mk.injEq] at h
    rw [← h.1] at hd
    simp at hd
  | malformedAddress =>
    simp only [mainProgram, hargs] at h
    simp only [Option.some.injEq, Prod.mk.injEq] at h
    rw [← h.1] at hd
    simp at hd
  | ok name address ctorArgs =>
    rcases mainProgram_post_data apiKey rpcUrl argv castChainIdOut config code
      licenseType1 licenseType2 castActionOut submitRs1 pollRs1 submitRs2 pollRs2
      name address ctorArgs evts o hargs h d hd with h' | h' <;> rw [h'] <;> rfl

/-- Concrete run of the amended C8 theorem: chain-id output "1\n" yields
requests whose `chainid` field is "1". -/
theorem chain_id_newline_strip_witness :
    (buildData "1" "MySpell" "0x1111111111111111111111111111111111111111" "src" "0xdead"
        "DssExecLib" "" 5).chainid = stripTrailingNewlineSpec "1\n" :=
  chain_id_newline_strip "key" "url"
    ["./verify.py", "MySpell", "0x1111111111111111111111111111111111111111", "0xdead"]
    "1\n" none "src" 5 5 "0xaa\n"
    [⟨"1", "OK", "guid1"⟩] [⟨"1", "OK", "Pass - Verified"⟩]
    [⟨"1", "OK", "guid2"⟩] [⟨"1", "OK", "Pass - Verified"⟩]
    [Event.post (buildData "1" "MySpell" "0x1111111111111111111111111111111111111111"
        "src" "0xdead" "DssExecLib" "" 5),
     Event.statusQuery "guid1",
     Event.post (buildData "1" "DssSpellAction" "0xaa" "src" "0xdead" "DssExecLib" "" 5),
     Event.statusQuery "guid2"]
    (MainOutcome.completed Outcome.verifiedOk Outcome.verifiedOk)
    (by decide) (by decide)
    (buildData "1" "MySpell" "0x1111111111111111111111111111111111111111" "src" "0xdead"
        "DssExecLib" "" 5)
    (by decide)

/-- A 42-character string containing no hexadecimal digit at all. -/
def zAddr : String := "zzzzzzzzzzzzzzzzzzzzzzzzzzzzzzzzzzzzzzzzzz"

/-- Claim C9 counterexample: the argument loader checks only the length of
the address, never that it is hex.  `zAddr` is a 42-character argument all
of whose characters are non-hexadecimal, yet the program accepts it and
proceeds to verification — it issues an HTTP POST for it. -/
theorem non_hex_address_accepted_counterexample :
    zAddr.length = 42 ∧
    zAddr.toList.all isHexChar = false ∧
    parseArgs ["./verify.py", "MySpell", zAddr] = ArgsResult.ok "MySpell" zAddr "" ∧
    mainProgram (some "key") (some "url") ["./verify.py", "MySpell", zAddr] "1\n" none "src"
        5 5 "0xaa\n" [⟨"0", "NOTOK", "some error"⟩] [] [] []
      = some ([Event.post (buildData "1" "MySpell" zAddr "src" "" "DssExecLib" "" 5),
               Event.raiseError "Failed to verify"],
              MainOutcome.abortedSpell Outcome.raisedFailedVerify) ∧
    0 < countPosts [Event.post (buildData "1" "MySpell" zAddr "src" "" "DssExecLib" "" 5),
                    Event.raiseError "Failed to verify"] := by
  exact ⟨by decide, by decide, by decide, by decide, by decide⟩

/-- Claim C9 (amended): the argument loader validates only that the address
argument is exactly 42 characters long; every 42-character address — hex or
not — passes validation and the program proceeds to verification. -/
theorem address_validation_length_only (prog name addr ctorArgs : String)
    (h : addr.length = 42) :
    parseArgs [prog, name, addr] = ArgsResult.ok name addr "" ∧
    parseArgs [prog, name, addr, ctorArgs] = ArgsResult.ok name addr ctorArgs := by
  constructor <;> simp [parseArgs, h]

/-- Concrete instance of the amended C9 theorem at the non-hex 42-character
address. -/
theorem address_validation_length_only_witness :
    parseArgs ["./verify.py", "MySpell", zAddr] = ArgsResult.ok "MySpell" zAddr "" ∧
    parseArgs ["./verify.py", "MySpell", zAddr, "0xdead"]
      = ArgsResult.ok "MySpell" zAddr "0xdead" :=
  address_validation_length_only "./verify.py" "MySpell" zAddr "0xdead" (by decide)

/-- Claim C10: when the invocation supplies the optional third
constructor-arguments argument `ctor`, every verification POST the script
issues — the primary spell contract's and the secondary action contract's —
carries exactly `ctor` as its `constructorArguements` field, so the two
requests' fields are identical. -/
theorem constructor_args_shared_both_requests
    (apiKey rpcUrl prog name addr ctor : String) (castChainIdOut : String)
    (config : Option String) (code : String) (licenseType1 licenseType2 : Nat)
    (castActionOut : String) (submitRs1 pollRs1 submitRs2 pollRs2 : List Response)
    (evts : List Event) (o : MainOutcome)
    (h : mainProgram (some apiKey) (some rpcUrl) [prog, name, addr, ctor] castChainIdOut
          config code licenseType1 licenseType2 castActionOut submitRs1 pollRs1 submitRs2 pollRs2
        = some (evts, o)) :
    ∀ d, Event.post d ∈ evts → d.constructorArguements = ctor := by
  intro d hd
  by_cases ha : addr.length = 42
  · have hargs : parseArgs [prog, name, addr, ctor] = ArgsResult.ok name addr ctor := by
      simp [parseArgs, ha]
    rcases mainProgram_post_data apiKey rpcUrl [prog, name, addr, ctor] castChainIdOut config
      code licenseType1 licenseType2 castActionOut submitRs1 pollRs1 submitRs2 pollRs2
      name addr ctor evts o hargs h d hd with h' | h' <;> rw [h'] <;> rfl
  · have hargs : parseArgs [prog, name, addr, ctor] = ArgsResult.malformedAddress := by
      simp [parseArgs, ha]
    simp only [mainProgram, hargs] at h
    simp only [Option.some.injEq, Prod.mk.injEq] at h
    rw [← h.1] at hd
    simp at hd

/-- Concrete run of the C10 theorem: both issued requests carry the
constructor-argument string "0xdead" supplied as the third argument. -/
theorem constructor_args_shared_both_requests_witness :
    (buildData "1" "MySpell" "0x1111111111111111111111111111111111111111" "src" "0xdead"
        "DssExecLib" "" 5).constructorArguements = "0xdead" ∧
    (buildData "1" "DssSpellAction" "0xaa" "src" "0xdead"
        "DssExecLib" "" 5).constructorArguements = "0xdead" :=
  ⟨constructor_args_shared_both_requests "key" "url" "./verify.py" "MySpell"
      "0x1111111111111111111111111111111111111111" "0xdead" "1\n" none "src" 5 5 "0xaa\n"
      [⟨"1", "OK", "guid1"⟩] [⟨"1", "OK", "Pass - Verified"⟩]
      [⟨"1", "OK", "guid2"⟩] [⟨"1", "OK", "Pass - Verified"⟩]
      [Event.post (buildData "1" "MySpell" "0x1111111111111111111111111111111111111111"
          "src" "0xdead" "DssExecLib" "" 5),
       Event.statusQuery "guid1",
       Event.post (buildData "1" "DssSpellAction" "0xaa" "src" "0xdead" "DssExecLib" "" 5),
       Event.statusQuery "guid2"]
      (MainOutcome.completed Outcome.verifiedOk Outcome.verifiedOk)
      (by decide)
      (buildData "1" "MySpell" "0x1111111111111111111111111111111111111111" "src" "0xdead"
          "DssExecLib" "" 5)
      (by decide),
   constructor_args_shared_both_requests "key" "url" "./verify.py" "MySpell"
      "0x1111111111111111111111111111111111111111" "0xdead" "1\n" none "src" 5 5 "0xaa\n"
      [⟨"1", "OK", "guid1"⟩] [⟨"1", "OK", "Pass - Verified"⟩]
      [⟨"1", "OK", "guid2"⟩] [⟨"1", "OK", "Pass - Verified"⟩]
      [Event.post (buildData "1" "MySpell" "0x1111111111111111111111111111111111111111"
          "src" "0xdead" "DssExecLib" "" 5),
       Event.statusQuery "guid1",
       Event.post (buildData "1" "DssSpellAction" "0xaa" "src" "0xdead" "DssExecLib" "" 5),
       Event.statusQuery "guid2"]
      (MainOutcome.completed Outcome.verifiedOk Outcome.verifiedOk)
      (by decide)
      (buildData "1" "DssSpellAction" "0xaa" "src" "0xdead" "DssExecLib" "" 5)
      (by decide)⟩

end VerifyScript
